import Mathlib

/-!
Verification of the sandbox policy engine (`src/policy.py`).

The file embeds the Python module shallowly: Python strings become Lean
`String`s, the string primitives used by the module (`startswith`,
`endswith`, `in`, `rstrip`, slicing, `split(...)[0]`) become executable
Lean functions over the underlying character lists, Python dicts become
association lists over a dynamic value type `PyValue`, and the `Policy`
class and `PolicyEngine` methods become Lean functions.  Theorems then
settle the specification's claims against these definitions.
-/

namespace SandboxPolicy

/-- Python `s.startswith(t)`. -/
def pyStartswith (s t : String) : Bool := t.data.isPrefixOf s.data

/-- Python `s.endswith(t)`. -/
def pyEndswith (s t : String) : Bool := t.data.isSuffixOf s.data

/-- `containsSub sub l` is true iff `sub` occurs as a contiguous sublist of `l`. -/
def containsSub (sub : List Char) : List Char → Bool
  | [] => sub.isPrefixOf []
  | c :: rest => sub.isPrefixOf (c :: rest) || containsSub sub rest

/-- Python `sub in s` (substring containment). -/
def pyContains (s sub : String) : Bool := containsSub sub.data s.data

/-- Python `s.rstrip(chars)`: removes trailing characters that are members of
the character SET `chars`.  Python treats the argument as a set of
characters, so `"0-9"` denotes the three characters `0`, `-` and `9`,
not the range of decimal digits. -/
def pyRstrip (s chars : String) : String :=
  ⟨(s.data.reverse.dropWhile (fun c => chars.data.contains c)).reverse⟩

/-- Python `s[n:]`. -/
def pyDrop (s : String) (n : Nat) : String := ⟨s.data.drop n⟩

/-- The part of `l` strictly before the first occurrence of `sub`
(all of `l` when `sub` does not occur in `l`). -/
def takeUntilSub (sub : List Char) : List Char → List Char
  | [] => []
  | c :: rest => if sub.isPrefixOf (c :: rest) then [] else c :: takeUntilSub sub rest

/-- Python `s.split(sub)[0]`: the part of `s` before the first occurrence
of `sub`. -/
def pySplitHead (s sub : String) : String := ⟨takeUntilSub sub.data s.data⟩

/-- Glob matching as performed by Python's `fnmatch.fnmatch(path, pattern)`.
The `fnmatch` standard-library module is not part of this repository; it is
modelled from the spec's description of its use here: `*` matches any run of
characters (including `/`), `?` matches exactly one character, and any other
character matches itself (case preserved, as on POSIX).  The function is
structurally recursive on the pattern: `*` tries every split point of the
remaining path. -/
def globMatch : List Char → List Char → Bool
  | [], path => path.isEmpty
  | '*' :: ps, path => (List.range (path.length + 1)).any (fun k => globMatch ps (path.drop k))
  | '?' :: ps, path =>
    match path with
    | [] => false
    | _ :: rest => globMatch ps rest
  | c :: ps, path =>
    match path with
    | [] => false
    | d :: rest => c == d && globMatch ps rest

/-- Python `fnmatch.fnmatch(path, pattern)`. -/
def fnmatch (path pattern : String) : Bool := globMatch pattern.data path.data

/-- The `Policy` value as consumed by the engine: `name`,
`allowed_file_paths`, `allowed_domains`, `strict`. -/
structure Policy where
  name : String
  allowed_file_paths : List String
  allowed_domains : List String
  strict : Bool
deriving DecidableEq

/-- Result of a policy access check (`PolicyViolation` in the source). -/
structure PolicyViolation where
  allowed : Bool
  resource_type : String
  resource_path : String
  reason : String
deriving DecidableEq

/-- `PolicyEngine._match_file_pattern(path, pattern)`:
if `"**" in pattern`, prefix-match against `pattern.split("**")[0]` or
fall back to `fnmatch`; else if `"*" in pattern and "**" not in pattern`,
prefix-match against `pattern.rstrip("*").rstrip("/")`; else `fnmatch`. -/
def matchFilePattern (path pattern : String) : Bool :=
  if pyContains pattern "**" then
    pyStartswith path (pySplitHead pattern "**") || fnmatch path pattern
  else if pyContains pattern "*" && !pyContains pattern "**" then
    pyStartswith path (pyRstrip (pyRstrip pattern "*") "/")
  else
    fnmatch path pattern

/-- The preprocessed pattern of `PolicyEngine._match_domain`:
`pattern.rstrip(":").rstrip("0-9")`. -/
def basePatternOf (pattern : String) : String := pyRstrip (pyRstrip pattern ":") "0-9"

/-- `PolicyEngine._match_domain(domain, pattern)`. -/
def matchDomain (domain pattern : String) : Bool :=
  let base_pattern := basePatternOf pattern
  if pyStartswith pattern "*." then
    let base := pyDrop base_pattern 2
    domain == base || pyEndswith domain ("." ++ base)
  else
    domain == base_pattern || pyStartswith domain (base_pattern ++ ":")

/-- `PolicyEngine.check_file_access(path)`. -/
def check_file_access (policy : Policy) (path : String) : PolicyViolation :=
  if policy.allowed_file_paths.isEmpty then
    ⟨false, "file", path, "No file paths allowed in policy"⟩
  else
    match policy.allowed_file_paths.find? (fun a => matchFilePattern path a) with
    | some _ => ⟨true, "file", path, ""⟩
    | none => ⟨false, "file", path, "Path not allowed"⟩

/-- `PolicyEngine.check_network_access(target)`. -/
def check_network_access (policy : Policy) (target : String) : PolicyViolation :=
  if policy.allowed_domains.isEmpty then
    ⟨false, "network", target, "No domains allowed in policy"⟩
  else
    let domain := pySplitHead target ":"
    match policy.allowed_domains.find? (fun a => matchDomain domain a) with
    | some _ => ⟨true, "network", target, ""⟩
    | none => ⟨false, "network", target, "Domain not allowed"⟩

/-- A dynamic Python value, as stored in a JSON-decoded dict and in the
attributes of a `Policy` object deserialized from such a dict. -/
inductive PyValue where
  | none : PyValue
  | bool : Bool → PyValue
  | int : Int → PyValue
  | str : String → PyValue
  | list : List PyValue → PyValue
  | dict : List (String × PyValue) → PyValue

/-- A Python dict with string keys (keys are unique in Python; lookups below
take the first binding). -/
def PyDict := List (String × PyValue)

/-- Python truthiness of a value (`bool(v)`). -/
def pyTruthy : PyValue → Bool
  | .none => false
  | .bool b => b
  | .int n => n != 0
  | .str s => !s.isEmpty
  | .list xs => !xs.isEmpty
  | .dict es => !es.isEmpty

/-- Python `a or b`: `a` when truthy, else `b`. -/
def pyOr (a b : PyValue) : PyValue := if pyTruthy a then a else b

/-- Python `isinstance(v, str)`. -/
def PyValue.isStr : PyValue → Bool
  | .str _ => true
  | _ => false

/-- Python `type(v).__name__`. -/
def pyTypeName : PyValue → String
  | .none => "NoneType"
  | .bool _ => "bool"
  | .int _ => "int"
  | .str _ => "str"
  | .list _ => "list"
  | .dict _ => "dict"

/-- The value bound to key `k` in dict `d`, when present. -/
def pyLookup (d : PyDict) (k : String) : Option PyValue :=
  (d.find? (fun e => e.1 == k)).map (fun e => e.2)

/-- Python `d.get(k, default)`. -/
def pyGet (d : PyDict) (k : String) (default : PyValue) : PyValue :=
  (pyLookup d k).getD default

/-- The `Policy` object at the dynamic (Python) typing level: each attribute
holds whatever value `__init__` stored, with no static types. -/
structure PolicyObj where
  name : PyValue
  allowed_file_paths : PyValue
  allowed_domains : PyValue
  strict : PyValue

/-- `Policy.__init__`: stores `name` and `strict` as given, and the two list
arguments filtered through Python `or []` (a falsy argument becomes `[]`). -/
def PolicyObj.init (name allowed_file_paths allowed_domains strict : PyValue) : PolicyObj :=
  ⟨name, pyOr allowed_file_paths (.list []), pyOr allowed_domains (.list []), strict⟩

/-- `Policy.to_dict()`. -/
def PolicyObj.to_dict (p : PolicyObj) : PyDict :=
  [("name", p.name),
   ("allowed_file_paths", p.allowed_file_paths),
   ("allowed_domains", p.allowed_domains),
   ("strict", p.strict)]

/-- `Policy.from_dict(data)`: reads `name` (default `"default"`), raises
`ValueError` (modelled as `Except.error` carrying the message) when it is not
a string, and otherwise builds the policy through `__init__` from the
remaining fields with their defaults. -/
def PolicyObj.from_dict (data : PyDict) : Except String PolicyObj :=
  let name := pyGet data "name" (.str "default")
  if !name.isStr then
    .error ("Policy name must be a string, got " ++ pyTypeName name)
  else
    .ok (PolicyObj.init name
      (pyGet data "allowed_file_paths" (.list []))
      (pyGet data "allowed_domains" (.list []))
      (pyGet data "strict" (.bool false)))

/-- The dynamic `Policy` object built by calling the constructor with a
(statically typed) `Policy`'s fields, as in
`Policy(name=..., allowed_file_paths=[...], allowed_domains=[...], strict=...)`. -/
def PolicyObj.ofPolicy (p : Policy) : PolicyObj :=
  PolicyObj.init (.str p.name)
    (.list (p.allowed_file_paths.map .str))
    (.list (p.allowed_domains.map .str))
    (.bool p.strict)

/-! ### Helper lemmas about the engine's first-match iteration -/

/-- Every string starts with the empty string. -/
lemma pyStartswith_empty (s : String) : pyStartswith s "" = true := by
  unfold pyStartswith
  have h0 : ("" : String).data = [] := rfl
  rw [h0]
  exact List.isPrefixOf_iff_prefix.mpr List.nil_prefix

/-- Any allowed file pattern that matches makes `check_file_access` allow. -/
lemma check_file_access_allowed_of_match (policy : Policy) (path a : String)
    (hmem : a ∈ policy.allowed_file_paths) (hma : matchFilePattern path a = true) :
    (check_file_access policy path).allowed = true := by
  have hne : policy.allowed_file_paths ≠ [] := by
    intro hnil
    rw [hnil] at hmem
    exact absurd hmem (List.not_mem_nil a)
  have hE : policy.allowed_file_paths.isEmpty = false := List.isEmpty_eq_false.mpr hne
  unfold check_file_access
  simp only [hE, Bool.false_eq_true, if_false]
  cases hf : policy.allowed_file_paths.find? (fun a => matchFilePattern path a) with
  | some v => rfl
  | none => exact absurd hma (List.find?_eq_none.mp hf a hmem)

/-- Any allowed domain pattern that matches makes `check_network_access` allow. -/
lemma check_network_access_allowed_of_match (policy : Policy) (target a : String)
    (hmem : a ∈ policy.allowed_domains) (hma : matchDomain (pySplitHead target ":") a = true) :
    (check_network_access policy target).allowed = true := by
  have hne : policy.allowed_domains ≠ [] := by
    intro hnil
    rw [hnil] at hmem
    exact absurd hmem (List.not_mem_nil a)
  have hE : policy.allowed_domains.isEmpty = false := List.isEmpty_eq_false.mpr hne
  unfold check_network_access
  simp only [hE, Bool.false_eq_true, if_false]
  cases hf : policy.allowed_domains.find? (fun a => matchDomain (pySplitHead target ":") a) with
  | some v => rfl
  | none => exact absurd hma (List.find?_eq_none.mp hf a hmem)

/-! ### Claims -/

/-- C2: for a pattern containing `"**"`, `_match_file_pattern` succeeds iff the
path starts with the literal part of the pattern before the first `"**"`, or
the path matches the whole pattern as a classic glob (`*` matches any run of
characters including `/`, `?` matches one character); in particular
`"/home/user/**"` matches `/home/user/subdir/file.txt` and not
`/home/other/file.txt`. -/
theorem matchFilePattern_doublestar_iff (path pattern : String)
    (h : pyContains pattern "**" = true) :
    (matchFilePattern path pattern = true ↔
      (pyStartswith path (pySplitHead pattern "**") = true ∨ fnmatch path pattern = true))
    ∧ matchFilePattern "/home/user/subdir/file.txt" "/home/user/**" = true
    ∧ matchFilePattern "/home/other/file.txt" "/home/user/**" = false := by
  refine ⟨?_, by decide, by decide⟩
  simp [matchFilePattern, h, Bool.or_eq_true]

/-- C2 witness: the double-star criterion applied at a concrete pattern and path. -/
theorem matchFilePattern_doublestar_iff_witness :
    matchFilePattern "/data/file.txt" "/data/**" = true :=
  ((matchFilePattern_doublestar_iff "/data/file.txt" "/data/**" (by decide)).1).mpr
    (Or.inl (by decide))

/-- C3: for a pattern containing `"*"` but not `"**"`, `_match_file_pattern`
succeeds iff the path starts with the pattern stripped of its trailing `*`
characters and then its trailing `/` characters; in particular
`"/home/user/*"` matches `/home/user/file.txt`, `/home/user/subdir` and
`/home/user/subdir/file.txt`. -/
theorem matchFilePattern_singlestar_iff (path pattern : String)
    (h1 : pyContains pattern "*" = true) (h2 : pyContains pattern "**" = false) :
    matchFilePattern path pattern = pyStartswith path (pyRstrip (pyRstrip pattern "*") "/")
    ∧ matchFilePattern "/home/user/file.txt" "/home/user/*" = true
    ∧ matchFilePattern "/home/user/subdir" "/home/user/*" = true
    ∧ matchFilePattern "/home/user/subdir/file.txt" "/home/user/*" = true := by
  refine ⟨?_, by decide, by decide, by decide⟩
  simp [matchFilePattern, h1, h2]

/-- C3 witness: the single-star criterion applied at a concrete pattern and path. -/
theorem matchFilePattern_singlestar_iff_witness :
    matchFilePattern "/home/user/file.txt" "/home/user/*" = true :=
  (matchFilePattern_singlestar_iff "/home/user/file.txt" "/home/user/*"
    (by decide) (by decide)).2.1

/-- C4: for a pattern starting with `"*."`, `_match_domain` succeeds iff the
domain equals the preprocessed pattern with the leading `"*."` removed, or the
domain ends with `"."` followed by that base; in particular `"*.google.com"`
matches `google.com`, `www.google.com` and `api.google.com`, and does not
match `google.com.evil.com`. -/
theorem matchDomain_subdomain_wildcard_iff (domain pattern : String)
    (h : pyStartswith pattern "*." = true) :
    (matchDomain domain pattern = true ↔
      (domain = pyDrop (basePatternOf pattern) 2 ∨
        pyEndswith domain ("." ++ pyDrop (basePatternOf pattern) 2) = true))
    ∧ matchDomain "google.com" "*.google.com" = true
    ∧ matchDomain "www.google.com" "*.google.com" = true
    ∧ matchDomain "api.google.com" "*.google.com" = true
    ∧ matchDomain "google.com.evil.com" "*.google.com" = false := by
  refine ⟨?_, by decide, by decide, by decide, by decide⟩
  simp [matchDomain, h, Bool.or_eq_true, beq_iff_eq]

/-- C4 witness: the subdomain-wildcard criterion applied at a concrete input. -/
theorem matchDomain_subdomain_wildcard_iff_witness :
    matchDomain "www.google.com" "*.google.com" = true :=
  (matchDomain_subdomain_wildcard_iff "www.google.com" "*.google.com" (by decide)).2.2.1

/-- C6: an empty `allowed_file_paths` denies every path with reason
`"No file paths allowed in policy"`, and an empty `allowed_domains` denies
every target with reason `"No domains allowed in policy"`. -/
theorem empty_policy_denies (policy : Policy) (path target : String) :
    (policy.allowed_file_paths = [] →
      check_file_access policy path =
        ⟨false, "file", path, "No file paths allowed in policy"⟩)
    ∧ (policy.allowed_domains = [] →
      check_network_access policy target =
        ⟨false, "network", target, "No domains allowed in policy"⟩) := by
  constructor
  · intro h
    simp [check_file_access, h]
  · intro h
    simp [check_network_access, h]

/-- C6 witness: the empty policy denies a concrete path and a concrete target. -/
theorem empty_policy_denies_witness :
    check_file_access ⟨"p", [], [], false⟩ "/etc/passwd" =
      ⟨false, "file", "/etc/passwd", "No file paths allowed in policy"⟩
    ∧ check_network_access ⟨"p", [], [], false⟩ "evil.com" =
      ⟨false, "network", "evil.com", "No domains allowed in policy"⟩ :=
  ⟨(empty_policy_denies ⟨"p", [], [], false⟩ "/etc/passwd" "evil.com").1 rfl,
   (empty_policy_denies ⟨"p", [], [], false⟩ "/etc/passwd" "evil.com").2 rfl⟩

/-- C5: `check_network_access` depends only on the part of the target before
the first `":"`: two targets with the same pre-colon portion receive the same
`allowed` boolean and the same reason; consequently with `"api.example.com"`
among the allowed domains, both `api.example.com:443` and
`api.example.com:8080` are allowed. -/
theorem check_network_access_port_insensitive (policy : Policy) (t1 t2 : String)
    (h : pySplitHead t1 ":" = pySplitHead t2 ":") :
    ((check_network_access policy t1).allowed = (check_network_access policy t2).allowed
      ∧ (check_network_access policy t1).reason = (check_network_access policy t2).reason)
    ∧ ("api.example.com" ∈ policy.allowed_domains →
        (check_network_access policy "api.example.com:443").allowed = true
        ∧ (check_network_access policy "api.example.com:8080").allowed = true) := by
  constructor
  · unfold check_network_access
    cases hE : policy.allowed_domains.isEmpty
    · simp only [hE, Bool.false_eq_true, if_false, h]
      cases policy.allowed_domains.find? (fun a => matchDomain (pySplitHead t2 ":") a) <;>
        simp
    · simp [hE]
  · intro hmem
    exact ⟨check_network_access_allowed_of_match policy "api.example.com:443"
        "api.example.com" hmem (by decide),
      check_network_access_allowed_of_match policy "api.example.com:8080"
        "api.example.com" hmem (by decide)⟩

/-- C5 witness: the port-insensitivity theorem applied at a concrete policy
and the two concrete targets of the claim. -/
theorem check_network_access_port_insensitive_witness :
    (check_network_access ⟨"p", [], ["api.example.com"], false⟩ "api.example.com:443").allowed
      = (check_network_access ⟨"p", [], ["api.example.com"], false⟩ "api.example.com:8080").allowed
    ∧ (check_network_access ⟨"p", [], ["api.example.com"], false⟩ "api.example.com:443").allowed
      = true := by
  have h := check_network_access_port_insensitive ⟨"p", [], ["api.example.com"], false⟩
    "api.example.com:443" "api.example.com:8080" (by decide)
  exact ⟨h.1.1, (h.2 (by simp)).1⟩

/-- C10: the pattern `"**"` and the pattern `"*"` each match every path,
including the empty one (the stripped literal part is empty and every string
starts with the empty string); hence a policy whose `allowed_file_paths`
contains `"*"` or `"**"` allows every file path. -/
theorem star_patterns_match_everything (path : String) :
    matchFilePattern path "**" = true
    ∧ matchFilePattern path "*" = true
    ∧ (∀ policy : Policy,
        "*" ∈ policy.allowed_file_paths ∨ "**" ∈ policy.allowed_file_paths →
        (check_file_access policy path).allowed = true) := by
  have hds : matchFilePattern path "**" = true := by
    have hc : pyContains "**" "**" = true := by decide
    have hsp0 : pySplitHead "**" "**" = "" := by decide
    simp [matchFilePattern, hc, hsp0, pyStartswith_empty]
  have hss : matchFilePattern path "*" = true := by
    have hc2 : pyContains "*" "**" = false := by decide
    have hc1 : pyContains "*" "*" = true := by decide
    have hr : pyRstrip (pyRstrip "*" "*") "/" = "" := by decide
    simp [matchFilePattern, hc1, hc2, hr, pyStartswith_empty]
  refine ⟨hds, hss, ?_⟩
  intro policy hmem
  rcases hmem with hmem | hmem
  · exact check_file_access_allowed_of_match policy path "*" hmem hss
  · exact check_file_access_allowed_of_match policy path "**" hmem hds

/-- C10 witness: both star patterns match the empty path, and a concrete
policy containing `"*"` allows a concrete path. -/
theorem star_patterns_match_everything_witness :
    matchFilePattern "" "**" = true
    ∧ matchFilePattern "" "*" = true
    ∧ (check_file_access ⟨"p", ["*"], [], false⟩ "/etc/shadow").allowed = true :=
  ⟨(star_patterns_match_everything "").1,
   (star_patterns_match_everything "").2.1,
   (star_patterns_match_everything "/etc/shadow").2.2 ⟨"p", ["*"], [], false⟩
     (Or.inl (by simp))⟩

/-- Python `L or []` is the identity on list values. -/
lemma pyOr_list_nil (L : List PyValue) : pyOr (.list L) (.list []) = .list L := by
  cases L <;> simp [pyOr, pyTruthy]

/-- C7: serialization round-trips: for every policy constructed from a string
name, lists of strings, and a boolean, `from_dict (to_dict p)` succeeds and
returns a policy object whose four fields equal those of `p`. -/
theorem policy_roundtrip (p : Policy) :
    PolicyObj.from_dict (PolicyObj.to_dict (PolicyObj.ofPolicy p)) = .ok (PolicyObj.ofPolicy p)
    ∧ (PolicyObj.ofPolicy p).name = .str p.name
    ∧ (PolicyObj.ofPolicy p).allowed_file_paths = .list (p.allowed_file_paths.map .str)
    ∧ (PolicyObj.ofPolicy p).allowed_domains = .list (p.allowed_domains.map .str)
    ∧ (PolicyObj.ofPolicy p).strict = .bool p.strict := by
  have hof : PolicyObj.ofPolicy p =
      ⟨.str p.name, .list (p.allowed_file_paths.map .str),
        .list (p.allowed_domains.map .str), .bool p.strict⟩ := by
    simp [PolicyObj.ofPolicy, PolicyObj.init, pyOr_list_nil]
  refine ⟨?_, by rw [hof], by rw [hof], by rw [hof], by rw [hof]⟩
  rw [hof]
  simp [PolicyObj.from_dict, PolicyObj.to_dict, PolicyObj.init, pyGet, pyLookup,
    List.find?, PyValue.isStr, pyOr_list_nil]

/-- C8: `from_dict` fails — with a message naming the actual type of the
`name` value — if and only if the record binds `name` to a non-string value;
when `name` is absent it succeeds and the name defaults to `"default"`. -/
theorem from_dict_name_validation (data : PyDict) :
    ((∃ v, pyLookup data "name" = some v ∧ v.isStr = false) ↔
      PolicyObj.from_dict data =
        .error ("Policy name must be a string, got "
          ++ pyTypeName (pyGet data "name" (.str "default"))))
    ∧ (pyLookup data "name" = none →
        ∃ q, PolicyObj.from_dict data = .ok q ∧ q.name = .str "default") := by
  constructor
  · constructor
    · rintro ⟨v, hv, hs⟩
      simp [PolicyObj.from_dict, pyGet, hv, hs]
    · intro he
      by_cases hl : ∃ v, pyLookup data "name" = some v
      · obtain ⟨v, hv⟩ := hl
        refine ⟨v, hv, ?_⟩
        by_contra hns
        have hs : v.isStr = true := by
          cases hvs : v.isStr
          · exact absurd hvs hns
          · rfl
        simp [PolicyObj.from_dict, pyGet, hv, hs] at he
      · have hnone : pyLookup data "name" = none := by
          cases hlk : pyLookup data "name" with
          | none => rfl
          | some v => exact absurd ⟨v, hlk⟩ hl
        simp [PolicyObj.from_dict, pyGet, hnone, PyValue.isStr] at he
  · intro hnone
    refine ⟨PolicyObj.init (.str "default")
        (pyGet data "allowed_file_paths" (.list []))
        (pyGet data "allowed_domains" (.list []))
        (pyGet data "strict" (.bool false)), ?_, rfl⟩
    simp [PolicyObj.from_dict, pyGet, hnone, PyValue.isStr]

/-- C8 witness: `from_dict` rejects a numeric name naming its type `int`, and
an empty record deserializes with name `"default"`. -/
theorem from_dict_name_validation_witness :
    PolicyObj.from_dict [("name", PyValue.int 123)] =
      .error "Policy name must be a string, got int"
    ∧ (∃ q, PolicyObj.from_dict ([] : PyDict) = .ok q ∧ q.name = .str "default") := by
  constructor
  · have h := (from_dict_name_validation [("name", PyValue.int 123)]).1.mp
      ⟨PyValue.int 123, by simp [pyLookup], rfl⟩
    exact h.trans (congrArg Except.error (by decide))
  · exact (from_dict_name_validation ([] : PyDict)).2 rfl

/-- C9: when the `name` value (or its default) is a string, `from_dict`
succeeds no matter what the other fields hold: the list fields are stored as
given except that falsy values become `[]`, and `strict` is stored as given
with default `false`. -/
theorem from_dict_lenient (data : PyDict)
    (h : (pyGet data "name" (.str "default")).isStr = true) :
    ∃ q, PolicyObj.from_dict data = .ok q
      ∧ q.name = pyGet data "name" (.str "default")
      ∧ q.allowed_file_paths =
          (if pyTruthy (pyGet data "allowed_file_paths" (.list [])) = true
            then pyGet data "allowed_file_paths" (.list []) else .list [])
      ∧ q.allowed_domains =
          (if pyTruthy (pyGet data "allowed_domains" (.list [])) = true
            then pyGet data "allowed_domains" (.list []) else .list [])
      ∧ q.strict = pyGet data "strict" (.bool false) := by
  refine ⟨PolicyObj.init (pyGet data "name" (.str "default"))
      (pyGet data "allowed_file_paths" (.list []))
      (pyGet data "allowed_domains" (.list []))
      (pyGet data "strict" (.bool false)), ?_, rfl, ?_, ?_, rfl⟩
  · simp [PolicyObj.from_dict, h]
  · simp [PolicyObj.init, pyOr]
  · simp [PolicyObj.init, pyOr]

/-- C9 witness: a record whose `allowed_file_paths` is the string `"oops"`
deserializes without error, storing the string unchanged. -/
theorem from_dict_lenient_witness :
    ∃ q, PolicyObj.from_dict [("allowed_file_paths", PyValue.str "oops")] = .ok q
      ∧ q.allowed_file_paths = .str "oops" := by
  obtain ⟨q, h1, h2, h3, h4, h5⟩ :=
    from_dict_lenient [("allowed_file_paths", PyValue.str "oops")] (by decide)
  refine ⟨q, h1, ?_⟩
  have ht : pyTruthy (pyGet [("allowed_file_paths", PyValue.str "oops")]
      "allowed_file_paths" (.list [])) = true := by decide
  rw [h3, if_pos ht]
  simp [pyGet, pyLookup]

/-- An element that fails the predicate survives `dropWhile`. -/
lemma mem_dropWhile_of_not (p : Char → Bool) (l : List Char) (x : Char)
    (hmem : x ∈ l) (hpx : p x = false) : x ∈ l.dropWhile p := by
  induction l with
  | nil => exact absurd hmem (List.not_mem_nil x)
  | cons a t ih =>
    rw [List.dropWhile_cons]
    by_cases hpa : p a = true
    · rw [if_pos hpa]
      rcases List.mem_cons.mp hmem with h | h
      · subst h
        rw [hpx] at hpa
        exact absurd hpa (by simp)
      · exact ih h
    · rw [if_neg hpa]
      exact hmem

/-- A character outside the stripped set survives `pyRstrip`. -/
lemma mem_pyRstrip (s chars : String) (x : Char)
    (hx : x ∈ s.data) (hnx : chars.data.contains x = false) :
    x ∈ (pyRstrip s chars).data := by
  show x ∈ (List.dropWhile (fun c => chars.data.contains c) s.data.reverse).reverse
  rw [List.mem_reverse]
  exact mem_dropWhile_of_not _ _ x (List.mem_reverse.mpr hx) hnx

/-- `pyRstrip` is the identity when the last character is not in the set. -/
lemma pyRstrip_eq_self (s chars : String) (c : Char) (rest : List Char)
    (hrev : s.data.reverse = c :: rest) (hc : chars.data.contains c = false) :
    pyRstrip s chars = s := by
  unfold pyRstrip
  rw [hrev, List.dropWhile_cons]
  simp only [hc, Bool.false_eq_true, if_false]
  rw [← hrev, List.reverse_reverse]

/-- `pyRstrip` returns an initial segment of its input. -/
lemma pyRstrip_front (s chars : String) : (pyRstrip s chars).data <+: s.data := by
  show (List.dropWhile (fun c => chars.data.contains c) s.data.reverse).reverse <+: s.data
  have h := List.dropWhile_suffix (l := s.data.reverse) (fun c => chars.data.contains c)
  have h2 := List.reverse_prefix.mpr h
  rwa [List.reverse_reverse] at h2

/-- C1 counterexample: the pattern `"example.com:1"` (base `"example.com"`
followed by a colon and a digit) does NOT behave as the base pattern
`"example.com"`: it rejects the domain `example.com` that the base accepts,
because `rstrip("0-9")` strips the character set 0, -, 9, leaving the `:1`
suffix in place. -/
theorem matchDomain_port_strip_counterexample :
    matchDomain "example.com" "example.com:1" = false
    ∧ matchDomain "example.com" "example.com" = true :=
  ⟨by decide, by decide⟩

/-- C1 amended: the preprocessing strips trailing `:` characters and then
trailing characters belonging to the SET 0, -, 9 (Python's `rstrip("0-9")`
takes its argument as a character set, not a range), in that order; so for
every pattern of the form base + ":" + digits with digits a nonempty run of
decimal digits, the preprocessed pattern keeps the colon after base and the
pattern matches NO domain free of `:` — in particular it never behaves as
matching base. -/
theorem matchDomain_embedded_port (base digits domain : String)
    (hne : digits ≠ "") (hdig : ∀ c ∈ digits.data, c.isDigit = true)
    (hdom : ':' ∉ domain.data) :
    matchDomain domain (base ++ ":" ++ digits) = false := by
  have hcolon : (":" : String).data = [':'] := rfl
  have hpatdata : (base ++ ":" ++ digits).data = base.data ++ ':' :: digits.data := by
    rw [String.data_append, String.data_append, hcolon]
    simp
  obtain ⟨d, rest, hrev⟩ : ∃ d rest, digits.data.reverse = d :: rest := by
    cases hr : digits.data.reverse with
    | nil =>
      exact absurd (String.ext ((List.reverse_eq_nil_iff.mp hr).trans rfl)) hne
    | cons d rest => exact ⟨d, rest, rfl⟩
  have hd_mem : d ∈ digits.data := by
    rw [← List.mem_reverse, hrev]
    exact List.mem_cons_self d rest
  have hd_digit : d.isDigit = true := hdig d hd_mem
  have hd_ne : (d == ':') = false := by
    rw [beq_eq_false_iff_ne]
    intro h
    rw [h] at hd_digit
    exact absurd hd_digit (by decide)
  have hrev_pat : (base ++ ":" ++ digits).data.reverse
      = d :: (rest ++ ':' :: base.data.reverse) := by
    rw [hpatdata]
    simp [hrev]
  have h1 : pyRstrip (base ++ ":" ++ digits) ":" = base ++ ":" ++ digits := by
    apply pyRstrip_eq_self _ _ d (rest ++ ':' :: base.data.reverse) hrev_pat
    rw [hcolon, List.contains_cons]
    simp [hd_ne]
  have hmem_colon : ':' ∈ (basePatternOf (base ++ ":" ++ digits)).data := by
    unfold basePatternOf
    rw [h1]
    apply mem_pyRstrip
    · rw [hpatdata]
      simp
    · decide
  have hfront : (basePatternOf (base ++ ":" ++ digits)).data
      <+: (base ++ ":" ++ digits).data := by
    unfold basePatternOf
    rw [h1]
    exact pyRstrip_front _ _
  simp only [matchDomain]
  cases hstar : pyStartswith (base ++ ":" ++ digits) "*." with
  | false =>
    rw [if_neg (by simp)]
    rw [Bool.or_eq_false_iff]
    constructor
    · rw [beq_eq_false_iff_ne]
      intro heq
      apply hdom
      rw [heq]
      exact hmem_colon
    · cases hsw : pyStartswith domain (basePatternOf (base ++ ":" ++ digits) ++ ":") with
      | false => rfl
      | true =>
        exfalso
        apply hdom
        unfold pyStartswith at hsw
        have hp := List.isPrefixOf_iff_prefix.mp hsw
        apply hp.sublist.subset
        rw [String.data_append, hcolon]
        simp
  | true =>
    rw [if_pos rfl]
    obtain ⟨tl, htl⟩ : ∃ tl, (base ++ ":" ++ digits).data = '*' :: '.' :: tl := by
      unfold pyStartswith at hstar
      have hp := List.isPrefixOf_iff_prefix.mp hstar
      have hsd : ("*." : String).data = ['*', '.'] := rfl
      rw [hsd] at hp
      obtain ⟨t, ht⟩ := hp
      exact ⟨t, ht.symm⟩
    rw [htl] at hfront
    cases hB : (basePatternOf (base ++ ":" ++ digits)).data with
    | nil =>
      rw [hB] at hmem_colon
      exact absurd hmem_colon (List.not_mem_nil _)
    | cons b1 B1 =>
      rw [hB] at hfront hmem_colon
      obtain ⟨hb1, hpre1⟩ := List.cons_prefix_cons.mp hfront
      cases B1 with
      | nil =>
        subst hb1
        rcases List.mem_cons.mp hmem_colon with h | h
        · exact absurd h (by decide)
        · exact absurd h (List.not_mem_nil _)
      | cons b2 B2 =>
        obtain ⟨hb2, hpre2⟩ := List.cons_prefix_cons.mp hpre1
        subst hb1
        subst hb2
        have hcolon_B2 : ':' ∈ B2 := by
          rcases List.mem_cons.mp hmem_colon with h | h
          · exact absurd h (by decide)
          · rcases List.mem_cons.mp h with h2 | h2
            · exact absurd h2 (by decide)
            · exact h2
        have hdrop : (pyDrop (basePatternOf (base ++ ":" ++ digits)) 2).data = B2 := by
          show (basePatternOf (base ++ ":" ++ digits)).data.drop 2 = B2
          rw [hB]
          rfl
        rw [Bool.or_eq_false_iff]
        constructor
        · rw [beq_eq_false_iff_ne]
          intro heq
          apply hdom
          rw [heq, hdrop]
          exact hcolon_B2
        · cases hsw : pyEndswith domain ("." ++ pyDrop (basePatternOf (base ++ ":" ++ digits)) 2) with
          | false => rfl
          | true =>
            exfalso
            apply hdom
            unfold pyEndswith at hsw
            apply (List.isSuffixOf_iff_suffix.mp hsw).sublist.subset
            rw [String.data_append, hdrop]
            exact List.mem_append.mpr (Or.inr hcolon_B2)

/-- C1 amended witness: the amended theorem applied to the concrete pattern
`"example.com:443"` and the concrete domain `example.com`. -/
theorem matchDomain_embedded_port_witness :
    matchDomain "example.com" ("example.com" ++ ":" ++ "443") = false :=
  matchDomain_embedded_port "example.com" "443" "example.com"
    (by decide) (by decide) (by decide)

end SandboxPolicy
